import Mathlib

/-!
Shallow embedding of the image provenance validation pipeline of the
dataScrapper repository (src/imageSearchService.js, src/cityService.js and
the HTTP controllers), together with theorems checking the specification's
claims against it.

Network effects are made explicit: the header probe performed by the URL
validators is an oracle `probe : String → ProbeResult`, and each validator
returns, next to its boolean verdict, the number of probe requests it
issued.  The external image-search provider is an oracle
`provider : Strategy → SearchOutcome`.
-/

/-- JavaScript runtime values, as far as the validators inspect them:
`null`, `undefined`, strings, numbers and booleans. -/
inductive JSValue where
  | nullV
  | undefinedV
  | strV (s : String)
  | numV (n : Int)
  | boolV (b : Bool)
deriving DecidableEq

/-- The `!url || typeof url !== 'string'` guard: the values that survive it
are exactly the non-empty strings. -/
def JSValue.asNonEmptyString : JSValue → Option String
  | .strV s => if s = "" then none else some s
  | _ => none

/-- Character-wise lowering, the effect of JavaScript `toLowerCase()` on the
ASCII text this pipeline handles. -/
def strLower (s : String) : String :=
  String.mk (s.data.map Char.toLower)

/-- JavaScript `String.prototype.includes`: substring containment. -/
def strIncludes (s pat : String) : Bool :=
  decide (pat.data <:+: s.data)

/-- JavaScript `String.prototype.endsWith`. -/
def strEndsWith (s pat : String) : Bool :=
  decide (pat.data <:+ s.data)

/-- JavaScript `String.prototype.startsWith`. -/
def strStartsWith (s pat : String) : Bool :=
  decide (pat.data <+: s.data)

/-- JavaScript `String.prototype.split(' ')`: split on every single space,
keeping empty fragments. -/
def splitWords (s : String) : List String :=
  (s.data.splitOn ' ').map String.mk

/-- Outcome of the header-only probe (`fetch(url, { method: 'HEAD' })`):
either the transport fails, or a response arrives and
`headers.get('content-type') || ''` yields `contentType`. -/
inductive ProbeResult where
  | err
  | ok (contentType : String)
deriving DecidableEq

namespace ImageSearchService

/-- imageSearchService.js line 18. -/
def imageExtensions : List String :=
  [".jpg", ".jpeg", ".png", ".gif", ".webp", ".bmp", ".svg", ".tiff", ".tif"]

/-- imageSearchService.js line 22. -/
def imagePathPatterns : List String :=
  ["/image/", "/img/", "/photo/", "/picture/", "/images/", "/photos/", "/pictures/"]

/-- imageSearchService.js line 26. -/
def imageCdnPatterns : List String :=
  ["i.imgur.com", "cdn.", "static.", "assets.", "media.", "uploads/"]

/-- `hasImageExtension` for a (lowered) URL. -/
def hasImageExtension (lowerUrl : String) : Bool :=
  imageExtensions.any fun ext => strIncludes lowerUrl ext

/-- `hasImagePath` for a (lowered) URL. -/
def hasImagePath (lowerUrl : String) : Bool :=
  imagePathPatterns.any fun pat => strIncludes lowerUrl pat

/-- `hasImageCdn` for a (lowered) URL. -/
def hasImageCdn (lowerUrl : String) : Bool :=
  imageCdnPatterns.any fun pat => strIncludes lowerUrl pat

/-- Shared tail of both probe sites (lines 40-52 and 61-73): classify one
probed content type.  `none` means the site falls through to the code after
it. -/
def probeVerdict (ct : String) : Option Bool :=
  if strStartsWith ct "image/" then some true
  else if strIncludes ct "text/html" || strIncludes ct "application/" then some false
  else none

/-- `ImageSearchService.isValidImageUrl` on a string input
(imageSearchService.js lines 15-82).  Returns the verdict and the number of
HEAD probes issued. -/
def isValidImageUrlStr (probe : String → ProbeResult) (url : String) : Bool × Nat :=
  let lowerUrl := strLower url
  if hasImageExtension lowerUrl then
    if strEndsWith lowerUrl ".svg" then (false, 0) else (true, 0)
  else if hasImagePath lowerUrl || hasImageCdn lowerUrl then
    match probe url with
    | .err => (false, 1)
    | .ok ct =>
      match probeVerdict ct with
      | some v => (v, 1)
      | none =>
        -- fall through to the last-resort probe (lines 61-78)
        match probe url with
        | .err => (false, 2)
        | .ok ct2 =>
          match probeVerdict ct2 with
          | some v => (v, 2)
          | none => (false, 2)
  else
    match probe url with
    | .err => (false, 1)
    | .ok ct =>
      match probeVerdict ct with
      | some v => (v, 1)
      | none => (false, 1)

/-- `ImageSearchService.isValidImageUrl` including the
`!url || typeof url !== 'string'` guard (line 13). -/
def isValidImageUrl (probe : String → ProbeResult) (v : JSValue) : Bool × Nat :=
  match v.asNonEmptyString with
  | none => (false, 0)
  | some url => isValidImageUrlStr probe url

end ImageSearchService

namespace CityService

/-- cityService.js line 149 (note: no ".svg" in this list). -/
def imageExtensions : List String :=
  [".jpg", ".jpeg", ".png", ".gif", ".webp", ".bmp", ".tiff", ".tif"]

/-- `hasImageExtension` for a (lowered) URL, cityService variant. -/
def hasImageExtension (lowerUrl : String) : Bool :=
  imageExtensions.any fun ext => strIncludes lowerUrl ext

/-- `CityService.validateImageUrl` on a string input
(cityService.js lines 148-170). -/
def validateImageUrlStr (probe : String → ProbeResult) (url : String) : Bool × Nat :=
  let lowerUrl := strLower url
  if hasImageExtension lowerUrl then
    if strEndsWith lowerUrl ".svg" then (false, 0) else (true, 0)
  else
    match probe url with
    | .err => (false, 1)
    | .ok ct =>
      match ImageSearchService.probeVerdict ct with
      | some v => (v, 1)
      | none => (false, 1)

/-- `CityService.validateImageUrl` including the guard (line 146). -/
def validateImageUrl (probe : String → ProbeResult) (v : JSValue) : Bool × Nat :=
  match v.asNonEmptyString with
  | none => (false, 0)
  | some url => validateImageUrlStr probe url

end CityService

namespace ImageSearchService

/-- The `type` argument of `executeStrategies`: `"university"` or `"city"`. -/
inductive SubjectKind where
  | university
  | city
deriving DecidableEq

/-- One provider result item: `item.link`, `item.image?.contextLink || ""`,
`item.title || ""`, and `parseInt(item.image.width/height)` where `none`
stands for a missing / `NaN` dimension. -/
structure Item where
  link : String
  contextLink : String
  title : String
  width : Option Nat
  height : Option Nat
deriving DecidableEq

/-- One search strategy: `{ name, query }`. -/
structure Strategy where
  name : String
  query : String
deriving DecidableEq

/-- Outcome of one provider query for one strategy: the `fetch`/`json` call
throws, or the response is non-success (`!response.ok`), or a (possibly
empty) item list arrives (`!data.items` is folded into the empty list). -/
inductive SearchOutcome where
  | fetchError
  | httpError
  | ok (items : List Item)
deriving DecidableEq

/-- imageSearchService.js line 380. -/
def badDomains : List String :=
  ["wikimedia.org", "wikipedia.org", "facebook.com", "lookaside.fbsbx.com"]

/-- imageSearchService.js line 381. -/
def badExts : List String :=
  [".svg", ".gif", ".ico"]

/-- `ImageSearchService.isForbidden` (lines 378-387). -/
def isForbidden (url : String) : Bool :=
  let lower := strLower url
  badDomains.any (fun d => strIncludes lower d)
    || badExts.any (fun e => strEndsWith lower e)

/-- imageSearchService.js line 393. -/
def universalBad : List String :=
  ["logo", "crest", "seal", "map", "diagram", "clipart", "vector", "black-white", "vintage"]

/-- imageSearchService.js lines 396-402. -/
def peopleBad : List String :=
  ["person", "people", "crowd", "crowds", "pedestrian", "pedestrians",
   "tourist", "tourists", "visitor", "visitors", "student", "students",
   "group", "groups", "audience", "fans", "spectator", "spectators",
   "walking", "standing", "sitting", "gathering", "event", "festival",
   "portrait", "portraits", "face", "faces", "human", "humans"]

/-- imageSearchService.js lines 405-414 (`notRealPhoto` inside
`hasBadKeywords`). -/
def notRealPhotoUrlKeywords : List String :=
  ["picture-frame", "picture frame", "framed", "frame-", "-frame",
   "shirt", "t-shirt", "tshirt", "merchandise", "merch", "print-on",
   "print-on-shirt", "on-shirt", "on-tshirt", "apparel", "clothing",
   "mug", "poster-print", "poster print", "canvas-print", "canvas print",
   "art-print", "art print", "rendered", "3d-render", "3d render",
   "cg-render", "cg render", "computer-generated", "artificial",
   "mockup", "mock-up", "template", "placeholder", "illustration",
   "drawing", "sketch", "painting", "artwork"]

/-- imageSearchService.js line 417. -/
def uniBad : List String :=
  ["stadium", "football", "basketball", "sport", "team", "roster", "coach",
   "mascot", "indoor", "classroom", "cafeteria"]

/-- `ImageSearchService.hasBadKeywords` (lines 389-428). -/
def hasBadKeywords (url : String) (ty : SubjectKind) : Bool :=
  let lower := strLower url
  universalBad.any (fun k => strIncludes lower k)
    || peopleBad.any (fun k => strIncludes lower k)
    || notRealPhotoUrlKeywords.any (fun k => strIncludes lower k)
    || (match ty with
        | .university => uniBad.any (fun k => strIncludes lower k)
        | .city => false)

/-- Stage 2.5 keyword list (lines 238-246, `notRealPhotoKeywords` inside the
candidate loop; differs from the `hasBadKeywords` list). -/
def notRealPhotoKeywords : List String :=
  ["picture-frame", "picture frame", "framed-", "-framed", "frame-", "-frame",
   "shirt", "t-shirt", "tshirt", "merchandise", "merch", "print-on",
   "print-on-shirt", "on-shirt", "on-tshirt", "apparel", "clothing",
   "mug", "poster-print", "poster print", "canvas-print", "canvas print",
   "art-print", "art print", "rendered", "3d-render", "3d render",
   "cg-render", "cg render", "computer-generated", "artificial",
   "mockup", "mock-up", "template", "placeholder", "illustration"]

/-- imageSearchService.js line 285. -/
def wrongCountries : List String :=
  ["japan", "tokyo", "china", "beijing", "shanghai", "korea", "seoul"]

/-- imageSearchService.js line 308. -/
def genericKeywords : List String :=
  ["generic", "stock-photo", "placeholder", "template"]

/-- imageSearchService.js line 304 (advisory only: triggers a log line, never
a rejection). -/
def campusKeywords : List String :=
  ["campus", "building", "architecture", "exterior", "university"]

/-- imageSearchService.js line 324. -/
def cityscapeKeywords : List String :=
  ["cityscape", "skyline", "urban-landscape", "many-buildings", "city-view",
   "buildings", "downtown", "waterfront", "landmark"]

/-- imageSearchService.js line 328. -/
def singleBuildingKeywords : List String :=
  ["single-building", "one-building", "individual-building"]

/-- Line 229: `` `${imageUrl} ${contextLink} ${title}`.toLowerCase() ``. -/
def candidateText (it : Item) : String :=
  strLower (it.link ++ " " ++ it.contextLink ++ " " ++ it.title)

/-- Stage 2.5 (lines 247-251). -/
def notRealPhotoReject (allText : String) : Bool :=
  notRealPhotoKeywords.any fun k => strIncludes allText k

/-- Stage 3, location validation (lines 254-299), guarded by `if (name)`. -/
def locationReject (ty : SubjectKind) (name country : String) (allText : String) : Bool :=
  if name = "" then false
  else
    match ty with
    | .university =>
      let nameWords := (splitWords name).filter fun w => w.length > 3
      !(nameWords.any fun w => strIncludes allText (strLower w))
    | .city =>
      if !(strIncludes allText (strLower name)) then true
      else if country = "" then false
      else
        let hasCountry := strIncludes allText (strLower country)
        let hasWrongCountry := wrongCountries.any fun wc => strIncludes allText wc
        hasWrongCountry && !hasCountry

/-- Stage 4 rejection for universities (lines 308-314); the campus-keyword
scan only logs. -/
def genericReject (ty : SubjectKind) (allText : String) : Bool :=
  match ty with
  | .university => genericKeywords.any fun k => strIncludes allText k
  | .city => false

/-- Stage 5 rejection for cities (lines 324-334). -/
def singleBuildingReject (ty : SubjectKind) (allText : String) : Bool :=
  match ty with
  | .university => false
  | .city =>
    (singleBuildingKeywords.any fun k => strIncludes allText k)
      && !(cityscapeKeywords.any fun k => strIncludes allText k)

/-- Stage 6, aspect-ratio gate (lines 343-352).  `if (width && height)`
makes zero/`NaN` dimensions skip the gate; `w / h < 1.2 || w / h > 2.5` is
expressed by the equivalent exact integer comparisons. -/
def aspectReject (width height : Option Nat) : Bool :=
  match width, height with
  | some w, some h =>
    if w = 0 || h = 0 then false
    else decide (5 * w < 6 * h) || decide (2 * w > 5 * h)
  | _, _ => false

/-- One pass of the candidate loop body (lines 223-367): the candidate is
accepted iff no stage rejects it; stages are pure, so the sequence of
`continue`s is the conjunction of the negated rejection conditions, in
source order. -/
def evalCandidate (probe : String → ProbeResult) (ty : SubjectKind)
    (name country : String) (it : Item) : Bool :=
  let allText := candidateText it
  !(isForbidden it.link)
  && !(hasBadKeywords it.link ty)
  && !(notRealPhotoReject allText)
  && !(locationReject ty name country allText)
  && !(genericReject ty allText)
  && !(singleBuildingReject ty allText)
  && !(aspectReject it.width it.height)
  && (isValidImageUrl probe (.strV it.link)).1

/-- Trace of one `executeStrategies` run: the returned value, the strategies
for which a provider query was issued, and the candidates that entered the
filter chain, both in order. -/
structure RunTrace where
  result : Option String
  queries : List Strategy
  evaluated : List Item
deriving DecidableEq

/-- The inner `for (const item of data.items)` loop: first accepted link, if
any, together with the candidates evaluated on the way. -/
def tryItemsTr (probe : String → ProbeResult) (ty : SubjectKind)
    (name country : String) : List Item → Option String × List Item
  | [] => (none, [])
  | it :: rest =>
    if evalCandidate probe ty name country it then (some it.link, [it])
    else
      let (r, ev) := tryItemsTr probe ty name country rest
      (r, it :: ev)

/-- `ImageSearchService.executeStrategies` (lines 194-376), instrumented
with the run trace.  A failed or non-success provider call only forfeits
that strategy; an accepted candidate returns immediately. -/
def executeStrategiesTr (provider : Strategy → SearchOutcome)
    (probe : String → ProbeResult) (ty : SubjectKind)
    (name country : String) : List Strategy → RunTrace
  | [] => ⟨none, [], []⟩
  | s :: rest =>
    match provider s with
    | .fetchError =>
      let t := executeStrategiesTr provider probe ty name country rest
      ⟨t.result, s :: t.queries, t.evaluated⟩
    | .httpError =>
      let t := executeStrategiesTr provider probe ty name country rest
      ⟨t.result, s :: t.queries, t.evaluated⟩
    | .ok items =>
      match tryItemsTr probe ty name country items with
      | (some url, ev) => ⟨some url, [s], ev⟩
      | (none, ev) =>
        let t := executeStrategiesTr provider probe ty name country rest
        ⟨t.result, s :: t.queries, ev ++ t.evaluated⟩

/-- The value `executeStrategies` returns (`imageUrl` or `null`). -/
def executeStrategies (provider : Strategy → SearchOutcome)
    (probe : String → ProbeResult) (ty : SubjectKind)
    (name country : String) (strategies : List Strategy) : Option String :=
  (executeStrategiesTr provider probe ty name country strategies).result

/-- What one strategy alone would contribute: `none` on provider failure or
when no item of its response is accepted. -/
def strategyYield (provider : Strategy → SearchOutcome)
    (probe : String → ProbeResult) (ty : SubjectKind)
    (name country : String) (s : Strategy) : Option String :=
  match provider s with
  | .fetchError => none
  | .httpError => none
  | .ok items => (tryItemsTr probe ty name country items).1

/-- `` `"${name}"` `` — quoted exact-match form used in every query. -/
def quoted (s : String) : String := "\"" ++ s ++ "\""

/-- The five strategies of `searchUniversityImage` (lines 97-123). -/
def uniStrategies (universityName : String) : List Strategy :=
  [⟨"Distinctive Campus Building (Best)",
    quoted universityName ++ " campus building distinctive architecture exterior photo -logo -crest -map -black -white -vintage -drawing -plan -diagram -person -people -crowd -pedestrian -tourist -student -generic -frame -framed -shirt -merchandise -print -rendered -mockup -template"⟩,
   ⟨"Iconic Main Building",
    quoted universityName ++ " main building iconic architecture campus exterior photo -sports -football -stadium -crowd -logo -person -people -pedestrian -tourist -student -group -generic -frame -framed -shirt -merchandise -print -rendered -mockup -template"⟩,
   ⟨"Campus Architecture Building",
    quoted universityName ++ " campus architecture building exterior daylight photo -interior -books -logo -person -people -crowd -pedestrian -generic -frame -framed -shirt -merchandise -print -rendered -mockup -template"⟩,
   ⟨"University Building Exterior",
    quoted universityName ++ " university building exterior architecture photo -logo -crest -person -people -portrait -indoor -crowd -pedestrian -tourist -student -group -generic -frame -framed -shirt -merchandise -print -rendered -mockup -template"⟩,
   ⟨"Campus View with Building",
    quoted universityName ++ " campus view building architecture photo -map -layout -plan -diagram -person -people -crowd -generic -frame -framed -shirt -merchandise -print -rendered -mockup -template"⟩]

/-- `country ? \`"${cityName}" "${country}" ...\` : \`"${cityName}" ...\`` -/
def cityQuery (cityName country tail : String) : String :=
  if country = "" then quoted cityName ++ " " ++ tail
  else quoted cityName ++ " " ++ quoted country ++ " " ++ tail

/-- The five strategies of `searchCityImage` (lines 148-184). -/
def cityStrategies (cityName country : String) : List Strategy :=
  [⟨"Cityscape Skyline (Best)",
    cityQuery cityName country "city skyline many buildings cityscape photo -map -weather -radar -person -people -crowd -pedestrian -tourist -visitor -walking -standing -single -one -frame -framed -shirt -merchandise -print -rendered -mockup -template"⟩,
   ⟨"Waterfront Cityscape",
    cityQuery cityName country "waterfront cityscape buildings skyline photo -map -aerial -person -people -crowd -pedestrian -tourist -visitor -walking -single -one -frame -framed -shirt -merchandise -print -rendered -mockup -template"⟩,
   ⟨"Urban Cityscape",
    cityQuery cityName country "urban cityscape many buildings city view daylight photo -traffic -map -person -people -crowd -pedestrian -tourist -visitor -walking -single -one -frame -framed -shirt -merchandise -print -rendered -mockup -template"⟩,
   ⟨"Landmark with City Buildings",
    cityQuery cityName country "landmark cityscape buildings urban view photo -map -plan -person -people -crowd -pedestrian -visitor -single -one -frame -framed -shirt -merchandise -print -rendered -mockup -template"⟩,
   ⟨"Downtown Cityscape",
    cityQuery cityName country "downtown cityscape buildings architecture photo -map -person -people -crowd -pedestrian -visitor -single -one -frame -framed -shirt -merchandise -print -rendered -mockup -template"⟩]

/-- `searchUniversityImage` (lines 91-126), with trace. -/
def searchUniversityImageTr (provider : Strategy → SearchOutcome)
    (probe : String → ProbeResult) (universityName : String) : RunTrace :=
  executeStrategiesTr provider probe .university universityName "" (uniStrategies universityName)

/-- The value `searchUniversityImage` returns. -/
def searchUniversityImage (provider : Strategy → SearchOutcome)
    (probe : String → ProbeResult) (universityName : String) : Option String :=
  (searchUniversityImageTr provider probe universityName).result

/-- `searchCityImage` (lines 133-187), with trace. -/
def searchCityImageTr (provider : Strategy → SearchOutcome)
    (probe : String → ProbeResult) (cityName country : String) : RunTrace :=
  executeStrategiesTr provider probe .city cityName country (cityStrategies cityName country)

/-- The value `searchCityImage` returns. -/
def searchCityImage (provider : Strategy → SearchOutcome)
    (probe : String → ProbeResult) (cityName country : String) : Option String :=
  (searchCityImageTr provider probe cityName country).result

end ImageSearchService

namespace CityService

/-- One entry of the `sources` array of the city schema. -/
structure SourceEntry where
  field : String
  source_name : String
  source_url : String
deriving DecidableEq

/-- A record validated by `CitySchema.parse` (schemas, `CitySchema`). -/
structure CityRecord where
  city : String
  state : Option String
  country : String
  city_image : String
  city_rating : String
  climate : Option String
  average_monthly_cost_of_living : Int
  average_rent : Int
  average_food_cost : Int
  transportation : Int
  utilities : Int
  internet_and_subscriptions : Int
  miscellaneous : Int
  currency : String
  average_part_time_job_pay : Option Int
  student_happiness_score : Option Int
  top_3_most_expensive_cities_in_region : List String
  top_3_most_affordable_cities_in_region : List String
  number_of_universities : Int
  sources : List SourceEntry
  data_notes : String
deriving DecidableEq

/-- The city-image handling step of `extractCityData` (cityService.js lines
374-393).  `search` is `some` exactly when `this.imageSearchService` is
configured, in which case it stands for its `searchCityImage`; in degraded
mode the record's own `city_image` is validated with `validateImageUrl`
and blanked out when rejected. -/
def handleCityImage (search : Option (String → String → Option String))
    (probe : String → ProbeResult) (city country : String)
    (rec : CityRecord) : CityRecord :=
  match search with
  | some searchFn =>
    match searchFn city country with
    | some img => if img = "" then rec else { rec with city_image := img }
    | none => rec
  | none =>
    if rec.city_image = "" then rec
    else if (validateImageUrlStr probe rec.city_image).1 then rec
    else { rec with city_image := "" }

end CityService

namespace CityController

/-- The request-body validation of `POST /extract-city` (cityController,
lines 19-31): both `city` and `country` must be non-empty strings, else the
request is rejected with a 400 before any service call. -/
def requestAccepted (city country : JSValue) : Bool :=
  (city.asNonEmptyString).isSome && (country.asNonEmptyString).isSome

end CityController

/-! ## Shared lemmas about the string primitives -/

theorem strIncludes_of_strEndsWith {s pat : String} (h : strEndsWith s pat = true) :
    strIncludes s pat = true := by
  unfold strEndsWith at h
  unfold strIncludes
  exact decide_eq_true (List.IsSuffix.isInfix (of_decide_eq_true h))

theorem strEndsWith_comparable {s p q : String} (hp : strEndsWith s p = true)
    (hq : strEndsWith s q = true) : p.data <:+ q.data ∨ q.data <:+ p.data := by
  unfold strEndsWith at hp hq
  exact List.suffix_or_suffix_of_suffix (of_decide_eq_true hp) (of_decide_eq_true hq)

theorem not_svg_of_strEndsWith {s p : String} (hp : strEndsWith s p = true)
    (hcmp : ¬(p.data <:+ ".svg".data ∨ ".svg".data <:+ p.data)) :
    strEndsWith s ".svg" = false := by
  cases hc : strEndsWith s ".svg"
  · rfl
  · exact absurd (strEndsWith_comparable hp hc) hcmp

theorem isValidImageUrlStr_accept_of_ext {probe : String → ProbeResult} {url ext : String}
    (hm : ext ∈ ImageSearchService.imageExtensions)
    (h : strEndsWith (strLower url) ext = true)
    (hsvg : strEndsWith (strLower url) ".svg" = false) :
    ImageSearchService.isValidImageUrlStr probe url = (true, 0) := by
  have hext : ImageSearchService.hasImageExtension (strLower url) = true :=
    List.any_eq_true.mpr ⟨ext, hm, strIncludes_of_strEndsWith h⟩
  simp [ImageSearchService.isValidImageUrlStr, hext, hsvg]

/-! ## C3 -/

/-- C3: the URL classifier accepts, with zero header probes, every URL whose
(lowercased) form ends in `.jpg` / `.png` / `.webp`; a URL ending in `.svg`
is rejected (also without a probe); probes only happen when the URL carries
no image extension, and when the issued probe reports the content type
`text/html` the URL is rejected. -/
theorem c3_url_classifier_extension_and_content_type
    (probe : String → ProbeResult) (url : String) :
    (strEndsWith (strLower url) ".jpg" = true →
      ImageSearchService.isValidImageUrlStr probe url = (true, 0)) ∧
    (strEndsWith (strLower url) ".png" = true →
      ImageSearchService.isValidImageUrlStr probe url = (true, 0)) ∧
    (strEndsWith (strLower url) ".webp" = true →
      ImageSearchService.isValidImageUrlStr probe url = (true, 0)) ∧
    (strEndsWith (strLower url) ".svg" = true →
      ImageSearchService.isValidImageUrlStr probe url = (false, 0)) ∧
    (ImageSearchService.hasImageExtension (strLower url) = true →
      (ImageSearchService.isValidImageUrlStr probe url).2 = 0) ∧
    (ImageSearchService.hasImageExtension (strLower url) = false →
      probe url = .ok "text/html" →
      ImageSearchService.isValidImageUrlStr probe url = (false, 1)) := by
  refine ⟨?_, ?_, ?_, ?_, ?_, ?_⟩
  · intro h
    exact isValidImageUrlStr_accept_of_ext (by decide) h (not_svg_of_strEndsWith h (by decide))
  · intro h
    exact isValidImageUrlStr_accept_of_ext (by decide) h (not_svg_of_strEndsWith h (by decide))
  · intro h
    exact isValidImageUrlStr_accept_of_ext (by decide) h (not_svg_of_strEndsWith h (by decide))
  · intro h
    have hext : ImageSearchService.hasImageExtension (strLower url) = true :=
      List.any_eq_true.mpr ⟨".svg", by decide, strIncludes_of_strEndsWith h⟩
    simp [ImageSearchService.isValidImageUrlStr, hext, h]
  · intro hext
    cases hsvg : strEndsWith (strLower url) ".svg" <;>
      simp [ImageSearchService.isValidImageUrlStr, hext, hsvg]
  · intro hno hp
    have hv : ImageSearchService.probeVerdict "text/html" = some false := by decide
    cases hpc : (ImageSearchService.hasImagePath (strLower url)
        || ImageSearchService.hasImageCdn (strLower url)) <;>
      simp [ImageSearchService.isValidImageUrlStr, hno, hpc, hp, hv]

/-- Witness for C3 at concrete URLs. -/
theorem c3_witness :
    strEndsWith (strLower "https://a.com/photo.JPG") ".jpg" = true ∧
    ImageSearchService.isValidImageUrlStr (fun _ => .err) "https://a.com/photo.JPG" = (true, 0) ∧
    strEndsWith (strLower "https://a.com/icon.svg") ".svg" = true ∧
    ImageSearchService.isValidImageUrlStr (fun _ => .err) "https://a.com/icon.svg" = (false, 0) ∧
    ImageSearchService.hasImageExtension (strLower "https://a.com/page") = false ∧
    ImageSearchService.isValidImageUrlStr (fun _ => .ok "text/html") "https://a.com/page" = (false, 1) :=
  ⟨by decide,
   (c3_url_classifier_extension_and_content_type (fun _ => .err) "https://a.com/photo.JPG").1
     (by decide),
   by decide,
   (c3_url_classifier_extension_and_content_type
     (fun _ => .err) "https://a.com/icon.svg").2.2.2.1 (by decide),
   by decide,
   (c3_url_classifier_extension_and_content_type
     (fun _ => .ok "text/html") "https://a.com/page").2.2.2.2.2 (by decide) rfl⟩

/-! ## C4 -/

/-- C4: when the header probe for a URL fails, both validators return
`false` (with exactly the one failed probe issued) rather than throwing,
for every URL that actually needs a probe (no image extension); moreover,
under a failing probe an accepting verdict can only ever arise without any
network request (the extension fast path), so inability to verify is never
treated as acceptance. -/
theorem c4_probe_failure_degrades_to_reject
    (probe : String → ProbeResult) (url : String) (herr : probe url = .err) :
    (ImageSearchService.hasImageExtension (strLower url) = false →
      ImageSearchService.isValidImageUrlStr probe url = (false, 1)) ∧
    (CityService.hasImageExtension (strLower url) = false →
      CityService.validateImageUrlStr probe url = (false, 1)) ∧
    ((ImageSearchService.isValidImageUrlStr probe url).1 = true →
      (ImageSearchService.isValidImageUrlStr probe url).2 = 0) ∧
    ((CityService.validateImageUrlStr probe url).1 = true →
      (CityService.validateImageUrlStr probe url).2 = 0) := by
  refine ⟨?_, ?_, ?_, ?_⟩
  · intro hno
    cases hpc : (ImageSearchService.hasImagePath (strLower url)
        || ImageSearchService.hasImageCdn (strLower url)) <;>
      simp [ImageSearchService.isValidImageUrlStr, hno, hpc, herr]
  · intro hno
    simp [CityService.validateImageUrlStr, hno, herr]
  · intro htrue
    cases hext : ImageSearchService.hasImageExtension (strLower url)
    · cases hpc : (ImageSearchService.hasImagePath (strLower url)
          || ImageSearchService.hasImageCdn (strLower url)) <;>
        simp [ImageSearchService.isValidImageUrlStr, hext, hpc, herr] at htrue
    · cases hsvg : strEndsWith (strLower url) ".svg" <;>
        simp [ImageSearchService.isValidImageUrlStr, hext, hsvg]
  · intro htrue
    cases hext : CityService.hasImageExtension (strLower url)
    · simp [CityService.validateImageUrlStr, hext, herr] at htrue
    · cases hsvg : strEndsWith (strLower url) ".svg" <;>
        simp [CityService.validateImageUrlStr, hext, hsvg]

/-- Witness for C4 at a concrete URL with a failing probe. -/
theorem c4_witness :
    (fun _ : String => ProbeResult.err) "https://a.com/page" = ProbeResult.err ∧
    ImageSearchService.hasImageExtension (strLower "https://a.com/page") = false ∧
    CityService.hasImageExtension (strLower "https://a.com/page") = false ∧
    ImageSearchService.isValidImageUrlStr (fun _ => .err) "https://a.com/page" = (false, 1) ∧
    CityService.validateImageUrlStr (fun _ => .err) "https://a.com/page" = (false, 1) :=
  ⟨rfl, by decide, by decide,
   (c4_probe_failure_degrades_to_reject (fun _ => .err) "https://a.com/page" rfl).1 (by decide),
   (c4_probe_failure_degrades_to_reject (fun _ => .err) "https://a.com/page" rfl).2.1 (by decide)⟩

/-! ## C10 -/

/-- C10: every input that is not a non-empty string (null, undefined, the
empty string, or a non-string value) makes both `isValidImageUrl` and
`validateImageUrl` return `false` immediately, with zero network
requests. -/
theorem c10_non_string_inputs_rejected_without_probe
    (probe : String → ProbeResult) (v : JSValue) (h : v.asNonEmptyString = none) :
    ImageSearchService.isValidImageUrl probe v = (false, 0) ∧
    CityService.validateImageUrl probe v = (false, 0) := by
  constructor
  · simp [ImageSearchService.isValidImageUrl, h]
  · simp [CityService.validateImageUrl, h]

/-- Witness for C10 at `null`. -/
theorem c10_witness :
    JSValue.asNonEmptyString .nullV = none ∧
    ImageSearchService.isValidImageUrl (fun _ => .ok "image/png") .nullV = (false, 0) ∧
    CityService.validateImageUrl (fun _ => .ok "image/png") .nullV = (false, 0) :=
  ⟨rfl,
   (c10_non_string_inputs_rejected_without_probe (fun _ => .ok "image/png") .nullV rfl).1,
   (c10_non_string_inputs_rejected_without_probe (fun _ => .ok "image/png") .nullV rfl).2⟩

/-! ## C7 -/

/-- C7: for a candidate whose width and height are both known (positive),
the geometry stage rejects exactly when the aspect ratio `w / h` falls
outside the band `[1.2, 2.5]`; a candidate with an unknown width or height
passes the geometry stage unconditionally; and a concrete portrait
candidate (ratio 0.8) with otherwise perfect keyword matches is rejected by
the full filter chain whatever the probe oracle does. -/
theorem c7_geometry_gate (probe : String → ProbeResult) (w h : Nat)
    (hw : 0 < w) (hh : 0 < h) (wo ho : Option Nat) :
    (ImageSearchService.aspectReject (some w) (some h) = true ↔
      ((w : ℚ) / (h : ℚ) < 1.2 ∨ (w : ℚ) / (h : ℚ) > 2.5)) ∧
    ImageSearchService.aspectReject none ho = false ∧
    ImageSearchService.aspectReject wo none = false ∧
    ImageSearchService.evalCandidate probe .university "Stanford" ""
      ⟨"https://a.com/stanford-hall.jpg", "https://a.com/ctx",
       "Stanford campus exterior", some 800, some 1000⟩ = false := by
  refine ⟨?_, ?_, ?_, ?_⟩
  · have hw' : w ≠ 0 := Nat.pos_iff_ne_zero.mp hw
    have hh' : h ≠ 0 := Nat.pos_iff_ne_zero.mp hh
    have hhq : (0:ℚ) < (h : ℚ) := by exact_mod_cast hh
    have e1 : ((w:ℚ) / (h:ℚ) < 1.2) ↔ (5 * w < 6 * h) := by
      rw [show (1.2 : ℚ) = 6 / 5 by norm_num, div_lt_div_iff₀ hhq (by norm_num),
        show (w:ℚ) * 5 = ((5 * w : ℕ) : ℚ) by push_cast; ring,
        show (6:ℚ) * (h:ℚ) = ((6 * h : ℕ) : ℚ) by push_cast; ring, Nat.cast_lt]
    have e2 : ((w:ℚ) / (h:ℚ) > 2.5) ↔ (2 * w > 5 * h) := by
      rw [show (2.5 : ℚ) = 5 / 2 by norm_num, gt_iff_lt, div_lt_div_iff₀ (by norm_num) hhq,
        show (5:ℚ) * (h:ℚ) = ((5 * h : ℕ) : ℚ) by push_cast; ring,
        show (w:ℚ) * 2 = ((2 * w : ℕ) : ℚ) by push_cast; ring, Nat.cast_lt]
    simp [ImageSearchService.aspectReject, hw', hh', e1, e2]
  · simp [ImageSearchService.aspectReject]
  · cases wo <;> simp [ImageSearchService.aspectReject]
  · have haspect : ImageSearchService.aspectReject (some 800) (some 1000) = true := by decide
    simp [ImageSearchService.evalCandidate, haspect]

/-- Witness for C7 at the spec's portrait example (800 x 1000, ratio 0.8). -/
theorem c7_witness :
    (0 < 800) ∧ (0 < 1000) ∧
    (ImageSearchService.aspectReject (some 800) (some 1000) = true ↔
      ((800 : ℚ) / (1000 : ℚ) < 1.2 ∨ (800 : ℚ) / (1000 : ℚ) > 2.5)) ∧
    ImageSearchService.evalCandidate (fun _ => .err) .university "Stanford" ""
      ⟨"https://a.com/stanford-hall.jpg", "https://a.com/ctx",
       "Stanford campus exterior", some 800, some 1000⟩ = false :=
  ⟨by decide, by decide,
   (c7_geometry_gate (fun _ => .err) 800 1000 (by decide) (by decide) none none).1,
   (c7_geometry_gate (fun _ => .err) 800 1000 (by decide) (by decide) none none).2.2.2⟩

/-! ## C6 -/

/-- C6: a City candidate evaluated for an entity with a non-empty name and
a known country is rejected by the filter chain whenever its combined
lowercased text (image URL + source page URL + title) contains one of the
hard-coded wrong-country tokens and does not contain the correct country
token. -/
theorem c6_wrong_country_guard (probe : String → ProbeResult)
    (name country wc : String) (it : ImageSearchService.Item)
    (hname : name ≠ "") (hcountry : country ≠ "")
    (hwc : wc ∈ ImageSearchService.wrongCountries)
    (hhas : strIncludes (ImageSearchService.candidateText it) wc = true)
    (hno : strIncludes (ImageSearchService.candidateText it) (strLower country) = false) :
    ImageSearchService.evalCandidate probe .city name country it = false := by
  have hloc : ImageSearchService.locationReject .city name country
      (ImageSearchService.candidateText it) = true := by
    unfold ImageSearchService.locationReject
    rw [if_neg hname]
    cases hcity : strIncludes (ImageSearchService.candidateText it) (strLower name)
    · simp [hcity]
    · have hwrong : ImageSearchService.wrongCountries.any
          (fun x => strIncludes (ImageSearchService.candidateText it) x) = true :=
        List.any_eq_true.mpr ⟨wc, hwc, hhas⟩
      simp [hcity, hcountry, hwrong, hno]
  simp [ImageSearchService.evalCandidate, hloc]

/-- Witness for C6: a Springfield/USA candidate mentioning Tokyo and not
the USA. -/
theorem c6_witness :
    ("Springfield" ≠ "") ∧ ("USA" ≠ "") ∧
    ("tokyo" ∈ ImageSearchService.wrongCountries) ∧
    strIncludes (ImageSearchService.candidateText
      ⟨"https://a.com/springfield.jpg", "", "Springfield Tokyo tower skyline",
       some 1600, some 900⟩) "tokyo" = true ∧
    strIncludes (ImageSearchService.candidateText
      ⟨"https://a.com/springfield.jpg", "", "Springfield Tokyo tower skyline",
       some 1600, some 900⟩) (strLower "USA") = false ∧
    ImageSearchService.evalCandidate (fun _ => .err) .city "Springfield" "USA"
      ⟨"https://a.com/springfield.jpg", "", "Springfield Tokyo tower skyline",
       some 1600, some 900⟩ = false :=
  ⟨by decide, by decide, by decide, by decide, by decide,
   c6_wrong_country_guard (fun _ => .err) "Springfield" "USA" "tokyo"
     ⟨"https://a.com/springfield.jpg", "", "Springfield Tokyo tower skyline",
      some 1600, some 900⟩
     (by decide) (by decide) (by decide) (by decide) (by decide)⟩

/-! ## Helper lemmas about the discovery loop -/

theorem tryItemsTr_fst_none (probe : String → ProbeResult)
    (ty : ImageSearchService.SubjectKind) (name country : String)
    (hrej : ∀ it, ImageSearchService.evalCandidate probe ty name country it = false) :
    ∀ items, (ImageSearchService.tryItemsTr probe ty name country items).1 = none := by
  intro items
  induction items with
  | nil => rfl
  | cons it rest ih =>
    cases htr : ImageSearchService.tryItemsTr probe ty name country rest with
    | mk r ev =>
      rw [htr] at ih
      simp [ImageSearchService.tryItemsTr, hrej it, htr]
      exact ih

theorem executeStrategiesTr_result_none
    (provider : ImageSearchService.Strategy → ImageSearchService.SearchOutcome)
    (probe : String → ProbeResult) (ty : ImageSearchService.SubjectKind)
    (name country : String) :
    ∀ strategies : List ImageSearchService.Strategy,
      (∀ t ∈ strategies,
        ImageSearchService.strategyYield provider probe ty name country t = none) →
      (ImageSearchService.executeStrategiesTr provider probe ty name country strategies).result
        = none := by
  intro strategies
  induction strategies with
  | nil => intro _; rfl
  | cons s rest ih =>
    intro hall
    have hs := hall s (List.mem_cons_self s rest)
    have hrest := ih (fun t ht => hall t (List.mem_cons_of_mem s ht))
    unfold ImageSearchService.strategyYield at hs
    unfold ImageSearchService.executeStrategiesTr
    cases hp : provider s with
    | fetchError => simpa using hrest
    | httpError => simpa using hrest
    | ok items =>
      rw [hp] at hs
      cases hti : ImageSearchService.tryItemsTr probe ty name country items with
      | mk r ev =>
        have hr : r = none := by
          have h2 : (ImageSearchService.tryItemsTr probe ty name country items).1 = none := hs
          rw [hti] at h2
          exact h2
        subst hr
        simp only [hti]
        simpa using hrest

theorem executeStrategiesTr_queries_ne_nil
    (provider : ImageSearchService.Strategy → ImageSearchService.SearchOutcome)
    (probe : String → ProbeResult) (ty : ImageSearchService.SubjectKind)
    (name country : String) (s : ImageSearchService.Strategy)
    (rest : List ImageSearchService.Strategy) :
    (ImageSearchService.executeStrategiesTr provider probe ty name country (s :: rest)).queries
      ≠ [] := by
  unfold ImageSearchService.executeStrategiesTr
  cases hp : provider s with
  | fetchError => simp
  | httpError => simp
  | ok items =>
    cases hti : ImageSearchService.tryItemsTr probe ty name country items with
    | mk r ev => cases r <;> simp [hti]

/-! ## C1 -/

/-- C1: if the first strategy's provider query succeeds and its first
candidate passes every filter stage, `executeStrategies` returns exactly
that candidate's image URL; the trace shows that only the first strategy
was queried and only that one candidate was evaluated. -/
theorem c1_short_circuit
    (provider : ImageSearchService.Strategy → ImageSearchService.SearchOutcome)
    (probe : String → ProbeResult) (ty : ImageSearchService.SubjectKind)
    (name country : String) (s : ImageSearchService.Strategy)
    (rest : List ImageSearchService.Strategy) (item : ImageSearchService.Item)
    (others : List ImageSearchService.Item)
    (hq : provider s = .ok (item :: others))
    (hacc : ImageSearchService.evalCandidate probe ty name country item = true) :
    ImageSearchService.executeStrategiesTr provider probe ty name country (s :: rest) =
      ⟨some item.link, [s], [item]⟩ := by
  simp [ImageSearchService.executeStrategiesTr, hq, ImageSearchService.tryItemsTr, hacc]

set_option maxRecDepth 8192 in
/-- Witness for C1: a stubbed provider whose first strategy returns one
passing candidate. -/
theorem c1_witness :
    ((fun _ : ImageSearchService.Strategy =>
        ImageSearchService.SearchOutcome.ok
          [⟨"https://a.com/stanford-hall.jpg", "https://a.com/ctx",
            "Stanford campus exterior", some 1600, some 900⟩]) ⟨"A", "qa"⟩ =
      ImageSearchService.SearchOutcome.ok
        (⟨"https://a.com/stanford-hall.jpg", "https://a.com/ctx",
          "Stanford campus exterior", some 1600, some 900⟩ :: [])) ∧
    ImageSearchService.evalCandidate (fun _ => .err) .university "Stanford" ""
      ⟨"https://a.com/stanford-hall.jpg", "https://a.com/ctx",
       "Stanford campus exterior", some 1600, some 900⟩ = true ∧
    ImageSearchService.executeStrategiesTr
      (fun _ => ImageSearchService.SearchOutcome.ok
        [⟨"https://a.com/stanford-hall.jpg", "https://a.com/ctx",
          "Stanford campus exterior", some 1600, some 900⟩])
      (fun _ => .err) .university "Stanford" "" (⟨"A", "qa"⟩ :: [⟨"B", "qb"⟩]) =
      ⟨some "https://a.com/stanford-hall.jpg", [⟨"A", "qa"⟩],
       [⟨"https://a.com/stanford-hall.jpg", "https://a.com/ctx",
         "Stanford campus exterior", some 1600, some 900⟩]⟩ :=
  ⟨rfl, by decide,
   c1_short_circuit
     (fun _ => ImageSearchService.SearchOutcome.ok
       [⟨"https://a.com/stanford-hall.jpg", "https://a.com/ctx",
         "Stanford campus exterior", some 1600, some 900⟩])
     (fun _ => .err) .university "Stanford" "" ⟨"A", "qa"⟩ [⟨"B", "qb"⟩]
     ⟨"https://a.com/stanford-hall.jpg", "https://a.com/ctx",
      "Stanford campus exterior", some 1600, some 900⟩ []
     rfl (by decide)⟩

/-! ## C2 -/

/-- C2: `executeStrategies` is a total function (it never throws for any
provider or probe behavior); a provider call that throws or returns a
non-success status only forfeits that strategy — the run continues exactly
as the run over the remaining strategies; and when every strategy yields no
accepted candidate (failure, empty or malformed payload, or all candidates
rejected) the result is `null`. -/
theorem c2_provider_failure_resilience
    (provider : ImageSearchService.Strategy → ImageSearchService.SearchOutcome)
    (probe : String → ProbeResult) (ty : ImageSearchService.SubjectKind)
    (name country : String) (s : ImageSearchService.Strategy)
    (rest strategies : List ImageSearchService.Strategy)
    (_hname : name ≠ "")
    (hfail : provider s = .fetchError ∨ provider s = .httpError)
    (hall : ∀ t ∈ strategies,
      ImageSearchService.strategyYield provider probe ty name country t = none) :
    ImageSearchService.executeStrategies provider probe ty name country (s :: rest) =
      ImageSearchService.executeStrategies provider probe ty name country rest ∧
    ImageSearchService.executeStrategies provider probe ty name country strategies = none := by
  constructor
  · rcases hfail with h | h <;>
      simp [ImageSearchService.executeStrategies, ImageSearchService.executeStrategiesTr, h]
  · exact executeStrategiesTr_result_none provider probe ty name country strategies hall

/-- Witness for C2: an always-failing provider. -/
theorem c2_witness :
    ("Paris" ≠ "") ∧
    ((fun _ : ImageSearchService.Strategy => ImageSearchService.SearchOutcome.fetchError)
        ⟨"A", "qa"⟩ = ImageSearchService.SearchOutcome.fetchError ∨
     (fun _ : ImageSearchService.Strategy => ImageSearchService.SearchOutcome.fetchError)
        ⟨"A", "qa"⟩ = ImageSearchService.SearchOutcome.httpError) ∧
    (∀ t ∈ [ImageSearchService.Strategy.mk "A" "qa"],
      ImageSearchService.strategyYield (fun _ => .fetchError) (fun _ => .err) .city
        "Paris" "France" t = none) ∧
    (ImageSearchService.executeStrategies (fun _ => .fetchError) (fun _ => .err) .city
        "Paris" "France" (⟨"A", "qa"⟩ :: [⟨"B", "qb"⟩]) =
      ImageSearchService.executeStrategies (fun _ => .fetchError) (fun _ => .err) .city
        "Paris" "France" [⟨"B", "qb"⟩] ∧
     ImageSearchService.executeStrategies (fun _ => .fetchError) (fun _ => .err) .city
        "Paris" "France" [⟨"A", "qa"⟩] = none) :=
  ⟨by decide, Or.inl rfl, by decide,
   c2_provider_failure_resilience (fun _ => .fetchError) (fun _ => .err) .city
     "Paris" "France" ⟨"A", "qa"⟩ [⟨"B", "qb"⟩] [⟨"A", "qa"⟩]
     (by decide) (Or.inl rfl) (by decide)⟩

/-! ## C5 -/

/-- C5 counterexample: the claim that an empty/blank entity name is
rejected before any network activity and that no strategy is constructed
for it is false on the code: with the empty city name, the strategy list is
not empty (all five strategies are built) and provider queries are issued. -/
theorem c5_counterexample :
    ¬(ImageSearchService.cityStrategies "" "USA" = [] ∧
      (ImageSearchService.searchCityImageTr (fun _ => .ok []) (fun _ => .err) "" "USA").queries
        = []) := by
  intro hclaim
  exact absurd hclaim.1 (by decide)

/-- C5 (amended): the image-search service performs no empty/blank-name
precondition check — for an empty or a whitespace-blank city name all five
strategies are constructed and the provider is queried; the HTTP
controller, however, rejects an empty-string (but not a whitespace-blank)
city name with a 400 before any service call. -/
theorem c5_no_precondition_in_service_controller_rejects_empty
    (provider : ImageSearchService.Strategy → ImageSearchService.SearchOutcome)
    (probe : String → ProbeResult) (country : String) (countryVal : JSValue)
    (hc : countryVal.asNonEmptyString.isSome = true) :
    (ImageSearchService.cityStrategies "" country).length = 5 ∧
    (ImageSearchService.cityStrategies " " country).length = 5 ∧
    (ImageSearchService.searchCityImageTr provider probe "" country).queries ≠ [] ∧
    (ImageSearchService.searchCityImageTr provider probe " " country).queries ≠ [] ∧
    CityController.requestAccepted (.strV "") countryVal = false ∧
    CityController.requestAccepted (.strV " ") countryVal = true := by
  refine ⟨rfl, rfl, ?_, ?_, ?_, ?_⟩
  · exact executeStrategiesTr_queries_ne_nil provider probe .city "" country _ _
  · exact executeStrategiesTr_queries_ne_nil provider probe .city " " country _ _
  · simp [CityController.requestAccepted, JSValue.asNonEmptyString]
  · have h1 : (JSValue.asNonEmptyString (.strV " ")).isSome = true := by decide
    simp [CityController.requestAccepted, h1, hc]

/-- Witness for C5 (amended) at a concrete provider and country. -/
theorem c5_witness :
    (JSValue.asNonEmptyString (.strV "USA")).isSome = true ∧
    ((ImageSearchService.cityStrategies "" "USA").length = 5 ∧
     (ImageSearchService.cityStrategies " " "USA").length = 5 ∧
     (ImageSearchService.searchCityImageTr (fun _ => .ok []) (fun _ => .err) "" "USA").queries
       ≠ [] ∧
     (ImageSearchService.searchCityImageTr (fun _ => .ok []) (fun _ => .err) " " "USA").queries
       ≠ [] ∧
     CityController.requestAccepted (.strV "") (.strV "USA") = false ∧
     CityController.requestAccepted (.strV " ") (.strV "USA") = true) :=
  ⟨by decide,
   c5_no_precondition_in_service_controller_rejects_empty
     (fun _ => .ok []) (fun _ => .err) "USA" (.strV "USA") (by decide)⟩

/-! ## C9 -/

set_option maxRecDepth 16384 in
/-- C9 counterexample: as universally stated, the claim fails at the empty
university name — every space-separated word of `""` has length at most 3,
yet the `if (name)` guard skips the subject-match stage entirely, so a
provider response with one otherwise-clean candidate is accepted and
`searchUniversityImage` does not return `null`. -/
theorem c9_counterexample :
    ¬(∀ name : String, (∀ w ∈ splitWords name, w.length ≤ 3) →
      ∀ (provider : ImageSearchService.Strategy → ImageSearchService.SearchOutcome)
        (probe : String → ProbeResult),
        ImageSearchService.searchUniversityImage provider probe name = none) := by
  intro hclaim
  have h := hclaim "" (by decide)
    (fun _ => .ok [⟨"https://a.com/x.jpg", "", "", none, none⟩]) (fun _ => .err)
  exact absurd h (by decide)

/-- C9 (amended): for every non-empty university name in which no
space-separated word is longer than 3 characters, the subject-match stage
rejects every candidate (the significant-word set is empty), so
`searchUniversityImage` returns `null` for every provider and probe
behavior. -/
theorem c9_short_name_words_never_found
    (provider : ImageSearchService.Strategy → ImageSearchService.SearchOutcome)
    (probe : String → ProbeResult) (name : String) (hname : name ≠ "")
    (hshort : ∀ w ∈ splitWords name, w.length ≤ 3) :
    ImageSearchService.searchUniversityImage provider probe name = none := by
  have hfil : (splitWords name).filter (fun w => w.length > 3) = [] :=
    List.filter_eq_nil_iff.mpr (fun w hw => by simpa using Nat.not_lt.mpr (hshort w hw))
  have hrej : ∀ it, ImageSearchService.evalCandidate probe .university name "" it = false := by
    intro it
    have hloc : ImageSearchService.locationReject .university name ""
        (ImageSearchService.candidateText it) = true := by
      unfold ImageSearchService.locationReject
      rw [if_neg hname]
      simp [hfil]
    simp [ImageSearchService.evalCandidate, hloc]
  have hyield : ∀ t ∈ ImageSearchService.uniStrategies name,
      ImageSearchService.strategyYield provider probe .university name "" t = none := by
    intro t _
    unfold ImageSearchService.strategyYield
    cases provider t with
    | fetchError => rfl
    | httpError => rfl
    | ok items => exact tryItemsTr_fst_none probe .university name "" hrej items
  exact executeStrategiesTr_result_none provider probe .university name ""
    (ImageSearchService.uniStrategies name) hyield

/-- Witness for C9 (amended) at the name `"MIT"`. -/
theorem c9_witness :
    ("MIT" ≠ "") ∧ (∀ w ∈ splitWords "MIT", w.length ≤ 3) ∧
    ImageSearchService.searchUniversityImage (fun _ => .fetchError) (fun _ => .err) "MIT"
      = none :=
  ⟨by decide, by decide,
   c9_short_name_words_never_found (fun _ => .fetchError) (fun _ => .err) "MIT"
     (by decide) (by decide)⟩

/-! ## C8 -/

/-- C8: in degraded mode (no image-search service configured), when the
record's upstream-supplied `city_image` is non-empty and the URL validator
rejects it, the image-handling step of `extractCityData` returns the same
record with `city_image` replaced by the empty string, all other fields
unchanged. -/
theorem c8_degraded_mode_blanks_rejected_image
    (probe : String → ProbeResult) (city country : String)
    (rec : CityService.CityRecord)
    (hne : rec.city_image ≠ "")
    (hrej : (CityService.validateImageUrlStr probe rec.city_image).1 = false) :
    CityService.handleCityImage none probe city country rec =
      { rec with city_image := "" } := by
  simp [CityService.handleCityImage, hne, hrej]

/-- Witness for C8 at a concrete record whose image URL probes as an HTML
page. -/
theorem c8_witness :
    (CityService.CityRecord.mk "Boston" none "USA" "https://example.com/page" "4" none
      0 0 0 0 0 0 0 "USD" none none [] [] 0 [] "").city_image ≠ "" ∧
    (CityService.validateImageUrlStr (fun _ => .ok "text/html")
      (CityService.CityRecord.mk "Boston" none "USA" "https://example.com/page" "4" none
        0 0 0 0 0 0 0 "USD" none none [] [] 0 [] "").city_image).1 = false ∧
    CityService.handleCityImage none (fun _ => .ok "text/html") "Boston" "USA"
      (CityService.CityRecord.mk "Boston" none "USA" "https://example.com/page" "4" none
        0 0 0 0 0 0 0 "USD" none none [] [] 0 [] "") =
      CityService.CityRecord.mk "Boston" none "USA" "" "4" none
        0 0 0 0 0 0 0 "USD" none none [] [] 0 [] "" :=
  ⟨by decide, by decide,
   c8_degraded_mode_blanks_rejected_image (fun _ => .ok "text/html") "Boston" "USA"
     (CityService.CityRecord.mk "Boston" none "USA" "https://example.com/page" "4" none
       0 0 0 0 0 0 0 "USD" none none [] [] 0 [] "")
     (by decide) (by decide)⟩
